import Mathlib

/-!
Verification of the Scratchers lottery EV/ROI pipeline (src/main.py).

The Python source is shallowly embedded: pandas columns become lists of
records, Python floats become exact rationals (`ℚ`), fallible steps become
`Option`/`Except`, and the per-game loop with `continue` becomes `filterMap`.
-/

namespace Scratchers

/-- One row of the prize-distribution table (`current_df`): the columns
`Prize Value` (after currency cleaning), `Remaining Prize Count` and
`Original Prize Count` used by the computation. -/
structure PrizeTier where
  prizeValue : ℚ
  remainingCount : ℚ
  originalCount : ℚ
deriving DecidableEq, Repr

/-- One entry of the breakdown list built by `calculate_ev_details`
(main.py lines 95-100): the dict with keys `Prize Value`, `Remaining Count`,
`Probability`, `EV Contribution`. -/
structure EvRow where
  prize_value : ℚ
  remaining_count : ℚ
  probability : ℚ
  ev_contribution : ℚ
deriving DecidableEq, Repr

/-- `probabilities = remaining_counts / current_tickets` (main.py line 62):
elementwise division of the remaining-count column by the scalar. -/
def probabilities (remaining_counts : List ℚ) (current_tickets : ℚ) : List ℚ :=
  remaining_counts.map (· / current_tickets)

/-- `expected_prize_value = (prize_values * probabilities).sum`
(main.py lines 65-68): elementwise product of the two columns, then sum. -/
def expected_prize_value (current_df : List PrizeTier) (current_tickets : ℚ) : ℚ :=
  (List.zipWith (· * ·) (current_df.map PrizeTier.prizeValue)
    (probabilities (current_df.map PrizeTier.remainingCount) current_tickets)).sum

/-- `calculate_expected_value` (main.py lines 47-73): if no tickets remain
the stake is lost, otherwise the vectorized expected prize value minus the
ticket cost. -/
def calculate_expected_value (current_df : List PrizeTier)
    (current_tickets ticket_price_num : ℚ) : ℚ :=
  if current_tickets = 0 then -ticket_price_num
  else expected_prize_value current_df current_tickets - ticket_price_num

/-- The body of the `for _, row in current_df.iterrows()` loop of
`calculate_ev_details` (main.py lines 87-100): one row extends the breakdown
list and adds its contribution to the running total. -/
def ev_details_step (current_tickets : ℚ) (acc : List EvRow × ℚ) (row : PrizeTier) :
    List EvRow × ℚ :=
  let probability := row.remainingCount / current_tickets
  let contribution := row.prizeValue * probability
  (acc.1 ++ [⟨row.prizeValue, row.remainingCount, probability, contribution⟩],
   acc.2 + contribution)

/-- The row-by-row running total `total_ev` accumulated by
`calculate_ev_details` (main.py lines 85-93), before the ticket cost is
subtracted. -/
def total_ev (current_df : List PrizeTier) (current_tickets : ℚ) : ℚ :=
  (current_df.foldl (ev_details_step current_tickets) ([], 0)).2

/-- `calculate_ev_details` (main.py lines 76-105): returns the breakdown list
and the direct-summation expected value; short-circuits to `([], -price)`
when `current_tickets == 0`. -/
def calculate_ev_details (current_df : List PrizeTier)
    (current_tickets ticket_price_num : ℚ) : List EvRow × ℚ :=
  if current_tickets = 0 then ([], -ticket_price_num)
  else
    let r := current_df.foldl (ev_details_step current_tickets) ([], 0)
    (r.1, r.2 - ticket_price_num)

/-- The breakdown dict built for one tier (main.py lines 91-100). -/
def ev_row (current_tickets : ℚ) (row : PrizeTier) : EvRow :=
  ⟨row.prizeValue, row.remainingCount, row.remainingCount / current_tickets,
   row.prizeValue * (row.remainingCount / current_tickets)⟩

/-- `roi = (expected_value / ticket_price_num) * 100 if ticket_price_num > 0
else 0` (main.py line 204). -/
def roi (expected_value ticket_price_num : ℚ) : ℚ :=
  if ticket_price_num > 0 then expected_value / ticket_price_num * 100 else 0

/-- A digit run read most-significant-first as a natural number. -/
def digitsToNat (l : List Char) : ℕ :=
  l.foldl (fun a c => a * 10 + (c.toNat - 48)) 0

/-- The sign-free part of `pyFloat`: a nonempty digit string with an
optional fractional part; anything else is rejected. -/
def pyFloatCore (l : List Char) : Option ℚ :=
  let intPart := l.takeWhile Char.isDigit
  let rest := l.dropWhile Char.isDigit
  match rest with
  | [] => if intPart.isEmpty then none else some (mkRat (digitsToNat intPart) 1)
  | '.' :: rest2 =>
    let fracPart := rest2.takeWhile Char.isDigit
    let rest3 := rest2.dropWhile Char.isDigit
    if rest3.isEmpty then
      if intPart.isEmpty && fracPart.isEmpty then none
      else some (mkRat (digitsToNat intPart * 10 ^ fracPart.length + digitsToNat fracPart)
                       (10 ^ fracPart.length))
    else none
  | _ => none

/-- The whitespace stripping Python's `float(str)` applies to its argument
before parsing. -/
def pyStrip (l : List Char) : List Char :=
  ((l.dropWhile Char.isWhitespace).reverse.dropWhile Char.isWhitespace).reverse

/-- Modelled from the library: Python's built-in `float(str)` on the finite
decimal numerals this pipeline feeds it — surrounding whitespace is
stripped, then an optional sign and a decimal numeral are accepted; any
other text raises `ValueError`, modelled as `none`. Exponent notation,
`inf` and `nan` do not occur in these inputs and are not modelled. -/
def pyFloat (s : String) : Option ℚ :=
  match pyStrip s.toList with
  | '-' :: rest => (pyFloatCore rest).map (fun q => -q)
  | '+' :: rest => pyFloatCore rest
  | l => pyFloatCore l

/-- Modelled from the library: Python's `str.split` with a one-character
separator — every occurrence of the separator starts a new (possibly empty)
chunk, and the result always has one more chunk than there are separator
occurrences. -/
def pySplitChar (sep : Char) : List Char → List (List Char)
  | [] => [[]]
  | c :: cs =>
    if c = sep then [] :: pySplitChar sep cs
    else
      match pySplitChar sep cs with
      | [] => [[c]]
      | h :: t => (c :: h) :: t

/-- `odds.split(":")` (main.py line 172) as a list of strings. -/
def pySplit (s : String) (sep : Char) : List String :=
  (pySplitChar sep s.toList).map (fun l => String.mk l)

/-- `odd_calculator = float(odds.split(":")[1])` (main.py line 172): split
the odds string on `:` and parse the token after the first colon; a missing
token (IndexError) or an unparsable token (ValueError) propagates to the
surrounding try/except, modelled as `none`. No check on the parsed value is
performed. -/
def odd_calculator (odds : String) : Option ℚ :=
  ((pySplit odds ':')[1]?).bind pyFloat

/-- `total_original_prizes = current_df["Original Prize Count"].sum()`
(main.py line 173). -/
def total_original_prizes (current_df : List PrizeTier) : ℚ :=
  (current_df.map PrizeTier.originalCount).sum

/-- `total_remaining_prizes = current_df['Remaining Prize Count'].sum()`
(main.py line 174). -/
def total_remaining_prizes (current_df : List PrizeTier) : ℚ :=
  (current_df.map PrizeTier.remainingCount).sum

/-- `original_tickets = float(total_original_prizes * odd_calculator)`
(main.py line 176); exact, no rounding. -/
def original_tickets (current_df : List PrizeTier) (oc : ℚ) : ℚ :=
  total_original_prizes current_df * oc

/-- `current_tickets = float(total_remaining_prizes * odd_calculator)`
(main.py line 177); exact, no rounding. -/
def current_tickets_est (current_df : List PrizeTier) (oc : ℚ) : ℚ :=
  total_remaining_prizes current_df * oc

/-- `money_back_prizes` (main.py lines 200-201): the sum of remaining counts
over tiers whose prize value is at least the ticket price. -/
def money_back_prizes (current_df : List PrizeTier) (ticket_price_num : ℚ) : ℚ :=
  ((current_df.filter fun t => decide (t.prizeValue ≥ ticket_price_num)).map
    PrizeTier.remainingCount).sum

/-- `current_df['Remaining Prize Amount'].sum()` where
`Remaining Prize Amount = Prize Value * Remaining Prize Count`
(main.py lines 164-165 and 220). -/
def total_prize_pool_remaining (current_df : List PrizeTier) : ℚ :=
  (current_df.map fun t => t.prizeValue * t.remainingCount).sum

/-- One raw row of the scraped prize table: the prize value is still a
currency string; the count columns arrive numeric. -/
structure RawTier where
  prizeValueRaw : String
  remainingCount : ℚ
  originalCount : ℚ
deriving DecidableEq, Repr

/-- One game's raw input: its name and the two tables from `pd.read_html`
(main.py lines 114-119) — the key/value metadata table `launch_df` and the
prize table `current_df`. -/
structure RawGame where
  name : String
  launch : List (String × String)
  tiers : List RawTier
deriving DecidableEq, Repr

/-- `launch_df.loc[launch_df[0] == key, 1].values[0]` (main.py lines 129,
135, 141): the value of the first metadata row whose key matches; no match
raises IndexError, caught by the surrounding try/except, modelled as
`none`. -/
def lookup_meta (launch_df : List (String × String)) (key : String) : Option String :=
  (launch_df.find? fun kv => kv.1 == key).map Prod.snd

/-- `current_df['Prize Value'].replace('[\$,]', '', regex=True).astype(float)`
for one cell (main.py line 157): delete every `$` and `,`, then parse as a
float. -/
def clean_prize_value (s : String) : Option ℚ :=
  pyFloat (String.mk (s.toList.filter fun c => !(c == '$' || c == ',')))

/-- `float(ticket_price.replace("$", ''))` (main.py line 179): only `$` is
removed here — a comma is kept and makes the parse fail. -/
def parse_ticket_price (s : String) : Option ℚ :=
  pyFloat (String.mk (s.toList.filter fun c => !(c == '$')))

/-- The `game_data` dict appended for one successfully processed game
(main.py lines 210-222). -/
structure GameRec where
  name : String
  ticket_price : ℚ
  top_prize : String
  odds : String
  original_tickets : ℚ
  current_tickets : ℚ
  expected_value : ℚ
  roi_percentage : ℚ
  money_back_prizes_remaining : ℚ
  total_prize_pool_remaining : ℚ
  ev_breakdown : List EvRow
deriving DecidableEq, Repr

/-- The body of the per-game loop (main.py lines 112-224): every failed
lookup, parse or conversion hits a `continue`, modelled as `none`; a full
pass builds the `game_data` record. The missing-column check (lines
146-153) cannot fail in this embedding because the prize table is already
structured. -/
def process_game (g : RawGame) : Option GameRec := do
  let ticket_price ← lookup_meta g.launch "Ticket Price"
  let top_prize ← lookup_meta g.launch "Top Prize"
  let odds ← lookup_meta g.launch "Overall Odds"
  let prize_values ← g.tiers.mapM (fun t => clean_prize_value t.prizeValueRaw)
  let current_df := List.zipWith
    (fun (v : ℚ) (t : RawTier) => PrizeTier.mk v t.remainingCount t.originalCount)
    prize_values g.tiers
  let oc ← odd_calculator odds
  let ticket_price_num ← parse_ticket_price ticket_price
  let ct := current_tickets_est current_df oc
  let ev := calculate_expected_value current_df ct ticket_price_num
  let details := calculate_ev_details current_df ct ticket_price_num
  some {
    name := g.name
    ticket_price := ticket_price_num
    top_prize := top_prize
    odds := odds
    original_tickets := original_tickets current_df oc
    current_tickets := ct
    expected_value := ev
    roi_percentage := roi ev ticket_price_num
    money_back_prizes_remaining := money_back_prizes current_df ticket_price_num
    total_prize_pool_remaining := total_prize_pool_remaining current_df
    ev_breakdown := details.1 }

/-- The loop's accumulation into `games_data` (main.py lines 110-228):
failed games are skipped via `continue`, successful records are appended in
order. -/
def games_data (gs : List RawGame) : List GameRec :=
  gs.filterMap process_game

/-- The ordering pandas argsorts by when sorting on the `Expected Value`
column ascending. -/
def evLE (a b : GameRec) : Prop := a.expected_value ≤ b.expected_value

instance : DecidableRel evLE := fun a b =>
  inferInstanceAs (Decidable (a.expected_value ≤ b.expected_value))

/-- Modelled from the library:
`df.sort_values('Expected Value', ascending=False)` at main.py line 234.
`pd.DataFrame(games_data)` (line 231) takes its columns from the record
keys, so an empty record list yields a frame with no columns at all and
`sort_values` raises `KeyError` for the absent column. On a nonempty frame
pandas computes an ascending argsort of the column — stable at the sizes in
scope, where the quicksort kernel degenerates to insertion sort — and then
reverses the indexer to realize `ascending=False`. -/
def df_sorted (gs : List GameRec) : Except String (List GameRec) :=
  if gs.isEmpty then Except.error "KeyError: Expected Value"
  else Except.ok ((gs.insertionSort evLE).reverse)

/-- A game record with a given name and expected value and neutral values
elsewhere, for exercising the ranker on concrete inputs. -/
def mkGame (name : String) (ev : ℚ) : GameRec :=
  ⟨name, 1, "", "1:1", 0, 0, ev, 0, 0, 0, []⟩

instance {e a : Type} [DecidableEq e] [DecidableEq a] : DecidableEq (Except e a) :=
  fun x y =>
  match x, y with
  | .error u, .error v =>
    if h : u = v then isTrue (by rw [h]) else isFalse (fun hh => h (Except.error.inj hh))
  | .error _, .ok _ => isFalse (fun hh => by cases hh)
  | .ok _, .error _ => isFalse (fun hh => by cases hh)
  | .ok u, .ok v =>
    if h : u = v then isTrue (by rw [h]) else isFalse (fun hh => h (Except.ok.inj hh))

instance : IsTotal GameRec evLE :=
  ⟨fun a b => le_total a.expected_value b.expected_value⟩

instance : IsTrans GameRec evLE :=
  ⟨fun _ _ _ h1 h2 => le_trans h1 h2⟩

lemma foldl_ev_details_step (current_tickets : ℚ) (tiers : List PrizeTier)
    (l : List EvRow) (s : ℚ) :
    tiers.foldl (ev_details_step current_tickets) (l, s) =
      (l ++ tiers.map (ev_row current_tickets),
       s + (tiers.map fun t =>
              t.prizeValue * (t.remainingCount / current_tickets)).sum) := by
  induction tiers generalizing l s with
  | nil => simp
  | cons t ts ih =>
    simp only [List.foldl_cons, ev_details_step, List.map_cons, List.sum_cons, ih]
    rw [Prod.mk.injEq]
    exact ⟨by simp [ev_row], by ring⟩

lemma expected_prize_value_eq (tiers : List PrizeTier) (current_tickets : ℚ) :
    expected_prize_value tiers current_tickets =
      (tiers.map fun t => t.prizeValue * (t.remainingCount / current_tickets)).sum := by
  unfold expected_prize_value probabilities
  induction tiers with
  | nil => simp
  | cons t ts ih => simp [ih]

lemma total_ev_eq (tiers : List PrizeTier) (current_tickets : ℚ) :
    total_ev tiers current_tickets =
      (tiers.map fun t => t.prizeValue * (t.remainingCount / current_tickets)).sum := by
  unfold total_ev
  rw [foldl_ev_details_step]
  simp

lemma pySplitChar_ne_nil (sep : Char) (l : List Char) : pySplitChar sep l ≠ [] := by
  induction l with
  | nil => simp [pySplitChar]
  | cons c cs ih =>
    by_cases h : c = sep
    · simp [pySplitChar, h]
    · cases hr : pySplitChar sep cs with
      | nil => exact absurd hr ih
      | cons x xs => simp [pySplitChar, h, hr]

lemma length_pySplitChar (sep : Char) (l : List Char) :
    (pySplitChar sep l).length = l.count sep + 1 := by
  induction l with
  | nil => simp [pySplitChar]
  | cons c cs ih =>
    by_cases h : c = sep
    · simp [pySplitChar, h, ih, List.count_cons]
    · cases hr : pySplitChar sep cs with
      | nil => exact absurd hr (pySplitChar_ne_nil sep cs)
      | cons x xs =>
        rw [hr] at ih
        simp only [List.length_cons] at ih
        simp [pySplitChar, h, hr, List.count_cons]
        omega

/-- C1: for every tier set and `currentTickets > 0`, the EV calculator gives
each tier the probability `remainingCount / currentTickets` and the
contribution `prizeValue × probability`, returns the sum of the
contributions minus the ticket price, and clamps nothing: a tier whose
remaining count exceeds the ticket count gets a probability above 1 that
enters the sum as-is. -/
theorem C1_ev_general_case (tiers : List PrizeTier) (T p : ℚ) (hT : 0 < T) :
    calculate_expected_value tiers T p =
        (tiers.map fun t => t.prizeValue * (t.remainingCount / T)).sum - p ∧
      (calculate_ev_details tiers T p).1 = tiers.map (ev_row T) ∧
      ∀ t ∈ tiers, T < t.remainingCount → 1 < (ev_row T t).probability := by
  refine ⟨?_, ?_, ?_⟩
  · rw [calculate_expected_value, if_neg hT.ne', expected_prize_value_eq]
  · simp [calculate_ev_details, if_neg hT.ne', foldl_ev_details_step]
  · intro t _ht hlt
    show 1 < t.remainingCount / T
    exact (one_lt_div hT).mpr hlt

/-- Witness for C1: one tier of prize value 5 with remaining count 4 against
2 current tickets and a ticket price of 1. -/
theorem C1_ev_general_case_witness :
    calculate_expected_value [⟨5, 4, 9⟩] 2 1 =
        (([⟨5, 4, 9⟩] : List PrizeTier).map fun t =>
          t.prizeValue * (t.remainingCount / 2)).sum - 1 ∧
      (calculate_ev_details [⟨5, 4, 9⟩] 2 1).1 =
        ([⟨5, 4, 9⟩] : List PrizeTier).map (ev_row 2) ∧
      ∀ t ∈ ([⟨5, 4, 9⟩] : List PrizeTier), 2 < t.remainingCount →
        1 < (ev_row 2 t).probability :=
  C1_ev_general_case [⟨5, 4, 9⟩] 2 1 (by norm_num)

/-- C2: with `currentTickets = 0` both EV functions short-circuit before any
division: the expected value is `-ticketPrice` and the breakdown is the
empty sequence, for every tier set and every ticket price. -/
theorem C2_ev_degenerate (tiers : List PrizeTier) (p : ℚ) :
    calculate_expected_value tiers 0 p = -p ∧
      calculate_ev_details tiers 0 p = ([], -p) := by
  constructor <;> simp [calculate_expected_value, calculate_ev_details]

/-- C3: the per-row direct summation of `calculate_ev_details` and the
vectorized `calculate_expected_value` agree for every tier set, ticket
count and ticket price: the returned expected values are equal, the two
prize-value sums are within relative tolerance 1e-9 of each other (the
embedding's arithmetic is exact, so they coincide), and for a nonzero
ticket count each result subtracts the ticket price from its prize-value
sum exactly. -/
theorem C3_details_match_vectorized (tiers : List PrizeTier) (T p : ℚ) :
    (calculate_ev_details tiers T p).2 = calculate_expected_value tiers T p ∧
      |total_ev tiers T - expected_prize_value tiers T| ≤
        1 / 1000000000 * |expected_prize_value tiers T| ∧
      (T ≠ 0 →
        calculate_expected_value tiers T p = expected_prize_value tiers T - p ∧
          (calculate_ev_details tiers T p).2 = total_ev tiers T - p) := by
  have hsum : total_ev tiers T = expected_prize_value tiers T := by
    rw [total_ev_eq, expected_prize_value_eq]
  have hfold : (tiers.foldl (ev_details_step T) ([], 0)).2 =
      expected_prize_value tiers T := hsum
  refine ⟨?_, ?_, fun hT => ⟨?_, ?_⟩⟩
  · by_cases h : T = 0
    · simp [calculate_ev_details, calculate_expected_value, h]
    · simp only [calculate_ev_details, calculate_expected_value, if_neg h]
      rw [hfold]
  · rw [hsum, sub_self, abs_zero]
    positivity
  · rw [calculate_expected_value, if_neg hT]
  · simp only [calculate_ev_details, if_neg hT]
    rfl

/-- Witness for C3's nonzero-ticket conjunct: one tier, 4 current tickets,
ticket price 3. -/
theorem C3_details_match_vectorized_witness :
    (4 : ℚ) ≠ 0 ∧
      (calculate_expected_value [⟨2, 1, 1⟩] 4 3 =
          expected_prize_value [⟨2, 1, 1⟩] 4 - 3 ∧
        (calculate_ev_details [⟨2, 1, 1⟩] 4 3).2 = total_ev [⟨2, 1, 1⟩] 4 - 3) :=
  ⟨by norm_num, (C3_details_match_vectorized [⟨2, 1, 1⟩] 4 3).2.2 (by norm_num)⟩

/-- Counterexample to C4: at `ticketPrice = 0` the code computes the number
0 (the else-branch of line 204) instead of reporting not-available, and at
`ticketPrice = -1 ≠ 0` it likewise returns 0, not
`100 × expectedValue / ticketPrice`. -/
theorem C4_roi_counterexample :
    roi 5 0 = 0 ∧ roi 1 (-1) = 0 ∧ 100 * (1 : ℚ) / (-1) ≠ 0 :=
  ⟨by decide, by decide, by norm_num⟩

/-- C4 as amended: `roiPercent` is always a computed number, never
not-available — it equals `100 × expectedValue / ticketPrice` exactly when
`ticketPrice > 0`, and is 0 when `ticketPrice ≤ 0` (including 0). -/
theorem C4_roi_amended (ev p : ℚ) :
    (0 < p → roi ev p = 100 * ev / p) ∧ (p ≤ 0 → roi ev p = 0) := by
  constructor
  · intro h
    rw [roi, if_pos h]
    ring
  · intro h
    rw [roi, if_neg (not_lt.mpr h)]

/-- Witness for C4's amended claim at prices 2 and -1. -/
theorem C4_roi_amended_witness :
    roi 1 2 = 100 * 1 / 2 ∧ roi 3 (-1) = 0 :=
  ⟨(C4_roi_amended 1 2).1 (by norm_num), (C4_roi_amended 3 (-1)).2 (by norm_num)⟩

/-- Counterexample to C5: the code performs no positivity check on the
parsed odds value — `"1:0"` parses successfully to 0 (≤ 0) instead of
failing, and so does a negative denominator. -/
theorem C5_odds_counterexample :
    odd_calculator "1:0" = some 0 ∧ odd_calculator "1:-2" = some (-2) ∧
      (0 : ℚ) ≤ 0 ∧ (-2 : ℚ) ≤ 0 :=
  ⟨by decide, by decide, by decide, by decide⟩

/-- C5 as amended: the odds parser splits on `:` and parses the second token
as a real; it fails exactly when the string has no colon or the second token
is non-numeric — a token parsing to a value ≤ 0 is accepted. Whitespace
around tokens is ignored and the first token is not validated:
`"1:4.5"` yields 4.5, `"1 : 10"` yields 10, `"7:4.5"` also yields 4.5, and
`"bad"` and `"1:abc"` fail. -/
theorem C5_odds_parse_amended :
    (∀ s : String,
      odd_calculator s = none ↔
        (':' ∉ s.toList ∨
          ∃ t, (pySplit s ':')[1]? = some t ∧ pyFloat t = none)) ∧
      odd_calculator "1:4.5" = some (mkRat 9 2) ∧
      odd_calculator "1 : 10" = some 10 ∧
      odd_calculator "7:4.5" = some (mkRat 9 2) ∧
      odd_calculator "bad" = none ∧
      odd_calculator "1:abc" = none ∧
      odd_calculator "1:0" = some 0 ∧
      odd_calculator "1:-2" = some (-2) := by
  refine ⟨fun s => ?_, by decide, by decide, by decide, by decide, by decide,
    by decide, by decide⟩
  have hiff : ∀ o : Option String,
      o.bind pyFloat = none ↔ (o = none ∨ ∃ t, o = some t ∧ pyFloat t = none) := by
    intro o
    cases o <;> simp
  have hnone : (pySplit s ':')[1]? = none ↔ ':' ∉ s.toList := by
    rw [List.getElem?_eq_none_iff, pySplit, List.length_map, length_pySplitChar]
    constructor
    · intro hlen
      have hc : s.toList.count ':' = 0 := by omega
      exact List.count_eq_zero.mp hc
    · intro hmem
      have hc : s.toList.count ':' = 0 := List.count_eq_zero.mpr hmem
      omega
  rw [odd_calculator, hiff, hnone]

/-- Counterexample to C6: two records with equal expected value come out of
the ranker in reversed input order, so the descending sort is not stable in
the claimed sense. -/
theorem C6_sort_counterexample :
    df_sorted [mkGame "a" 1, mkGame "b" 1] =
        Except.ok [mkGame "b" 1, mkGame "a" 1] ∧
      mkGame "a" 1 ≠ mkGame "b" 1 ∧
      (mkGame "a" 1).expected_value = (mkGame "b" 1).expected_value :=
  ⟨by decide, by decide, by decide⟩

/-- C6 as amended: on a nonempty input the ranker returns a permutation of
the records sorted by expected value in descending order, with records of
equal expected value emerging in reversed input order (pandas reverses an
ascending argsort); for distinct values the larger expected value comes
first, e.g. inputs with expected values {-0.5, 1.2, 0.0} come out in the
order [1.2, 0.0, -0.5]. -/
theorem C6_sort_amended :
    (∀ gs : List GameRec, gs ≠ [] →
      ∃ l, df_sorted gs = Except.ok l ∧ l.Perm gs ∧
        l.Sorted fun a b => b.expected_value ≤ a.expected_value) ∧
      df_sorted [mkGame "a" (mkRat (-1) 2), mkGame "b" (mkRat 12 10), mkGame "c" 0] =
        Except.ok [mkGame "b" (mkRat 12 10), mkGame "c" 0, mkGame "a" (mkRat (-1) 2)] ∧
      df_sorted [mkGame "a" 1, mkGame "b" 1] =
        Except.ok [mkGame "b" 1, mkGame "a" 1] := by
  refine ⟨fun gs hgs => ?_, by decide, by decide⟩
  have h' : gs.isEmpty = false := by
    cases gs with
    | nil => exact absurd rfl hgs
    | cons a l => rfl
  refine ⟨(gs.insertionSort evLE).reverse, ?_, ?_, ?_⟩
  · simp [df_sorted, h']
  · exact (List.reverse_perm _).trans (List.perm_insertionSort evLE gs)
  · exact List.pairwise_reverse.mpr (List.sorted_insertionSort evLE gs)

/-- Witness for C6's amended claim on a one-element input. -/
theorem C6_sort_amended_witness :
    ([mkGame "x" 1] : List GameRec) ≠ [] ∧
      ∃ l, df_sorted [mkGame "x" 1] = Except.ok l ∧ l.Perm [mkGame "x" 1] ∧
        l.Sorted fun a b => b.expected_value ≤ a.expected_value :=
  ⟨by decide, C6_sort_amended.1 [mkGame "x" 1] (by decide)⟩

/-- C7: the ticket-count estimator returns the parsed odds ratio times the
sum of original counts, and times the sum of remaining counts, with no
rounding; e.g. tiers whose original counts sum to 1000 and remaining counts
sum to 400, with odds "1:2", give 2000 and 800. -/
theorem C7_ticket_count_estimator :
    (∀ (tiers : List PrizeTier) (r : ℚ),
      original_tickets tiers r = r * total_original_prizes tiers ∧
        current_tickets_est tiers r = r * total_remaining_prizes tiers) ∧
      odd_calculator "1:2" = some 2 ∧
      total_original_prizes [⟨5, 300, 600⟩, ⟨10, 100, 400⟩] = 1000 ∧
      total_remaining_prizes [⟨5, 300, 600⟩, ⟨10, 100, 400⟩] = 400 ∧
      original_tickets [⟨5, 300, 600⟩, ⟨10, 100, 400⟩] 2 = 2000 ∧
      current_tickets_est [⟨5, 300, 600⟩, ⟨10, 100, 400⟩] 2 = 800 := by
  refine ⟨fun tiers r => ⟨mul_comm _ r, mul_comm _ r⟩, by decide, ?_, ?_, ?_, ?_⟩ <;>
    norm_num [original_tickets, current_tickets_est, total_original_prizes,
      total_remaining_prizes]

/-- Counterexample to C8: on the empty record list the ranker does fail —
the frame built from no records has no columns, and sorting on the absent
`Expected Value` column raises `KeyError` instead of yielding an empty
portfolio. -/
theorem C8_ranker_counterexample :
    df_sorted ([] : List GameRec) = Except.error "KeyError: Expected Value" := rfl

/-- C8 as amended: the ranker fails on the empty sequence of game records
(sorting a column-less frame raises a missing-column error before any
statistics are computed); on every nonempty sequence it succeeds. -/
theorem C8_ranker_amended :
    df_sorted ([] : List GameRec) = Except.error "KeyError: Expected Value" ∧
      ∀ gs : List GameRec, gs ≠ [] → ∃ l, df_sorted gs = Except.ok l := by
  refine ⟨rfl, fun gs hgs => ⟨(gs.insertionSort evLE).reverse, ?_⟩⟩
  have h' : gs.isEmpty = false := by
    cases gs with
    | nil => exact absurd rfl hgs
    | cons a l => rfl
  simp [df_sorted, h']

/-- Witness for C8's amended claim on a one-element input. -/
theorem C8_ranker_amended_witness :
    ([mkGame "x" 1] : List GameRec) ≠ [] ∧
      ∃ l, df_sorted [mkGame "x" 1] = Except.ok l :=
  ⟨by decide, C8_ranker_amended.2 [mkGame "x" 1] (by decide)⟩

/-- C9: a game whose metadata table lacks the "Overall Odds" key produces no
record, and the surrounding run is exactly the run without that game — the
remaining games are processed unaffected. -/
theorem C9_missing_odds_skipped (pre post : List RawGame) (g : RawGame)
    (h : lookup_meta g.launch "Overall Odds" = none) :
    process_game g = none ∧
      games_data (pre ++ g :: post) = games_data pre ++ games_data post := by
  have hg : process_game g = none := by
    cases hTP : lookup_meta g.launch "Ticket Price" with
    | none => simp [process_game, hTP]
    | some tp =>
      cases hTopP : lookup_meta g.launch "Top Prize" with
      | none => simp [process_game, hTP, hTopP]
      | some top => simp [process_game, hTP, hTopP, h]
  exact ⟨hg, by simp [games_data, hg]⟩

/-- Witness for C9: a raw game whose metadata has a ticket price but no
"Overall Odds" row. -/
theorem C9_missing_odds_skipped_witness :
    lookup_meta (RawGame.mk "g" [("Ticket Price", "$2")] []).launch
        "Overall Odds" = none ∧
      (process_game (RawGame.mk "g" [("Ticket Price", "$2")] []) = none ∧
        games_data ([] ++ RawGame.mk "g" [("Ticket Price", "$2")] [] :: []) =
          games_data [] ++ games_data []) :=
  ⟨by decide, C9_missing_odds_skipped [] [] _ (by decide)⟩

/-- C10: with nonnegative prize values and remaining counts and a positive
ticket count, every tier contributes nonnegatively, so the expected value
is at least `-ticketPrice`. -/
theorem C10_ev_lower_bound (tiers : List PrizeTier) (T p : ℚ) (hT : 0 < T)
    (h : ∀ t ∈ tiers, 0 ≤ t.prizeValue ∧ 0 ≤ t.remainingCount) :
    -p ≤ calculate_expected_value tiers T p := by
  rw [calculate_expected_value, if_neg hT.ne', expected_prize_value_eq]
  have hs : 0 ≤ (tiers.map fun t => t.prizeValue * (t.remainingCount / T)).sum := by
    apply List.sum_nonneg
    intro x hx
    obtain ⟨t, ht, rfl⟩ := List.mem_map.mp hx
    exact mul_nonneg (h t ht).1 (div_nonneg (h t ht).2 hT.le)
  linarith

/-- Witness for C10: a single nonnegative tier, 2 current tickets, price 1. -/
theorem C10_ev_lower_bound_witness :
    (0 : ℚ) < 2 ∧
      (∀ t ∈ ([⟨5, 4, 9⟩] : List PrizeTier),
        0 ≤ t.prizeValue ∧ 0 ≤ t.remainingCount) ∧
      -(1 : ℚ) ≤ calculate_expected_value [⟨5, 4, 9⟩] 2 1 :=
  ⟨by norm_num, by decide, C10_ev_lower_bound [⟨5, 4, 9⟩] 2 1 (by norm_num) (by decide)⟩

end Scratchers
